import Mathlib

/-!
# SSH certificate resource of the Venafi Terraform provider

A shallow embedding of `venafi/resource_venafi_ssh_certificate.go`:
`resourceVenafiSshCertCreate`, `resourceVenafiSshCertRead` and
`resourceVenafiSshCertDelete`, with the collaborators they call
(validation, connection, request building, key generation, the two
authority calls, `d.Set`) taken as an explicit environment.

Go strings are modelled by `String`, Go `int`/`int64` by `Int`, Go errors by
their message.  A `*schema.ResourceData` is a record of the attributes of the
schema; the create function returns the diagnostics, the resulting resource
data and the list of calls it made to its collaborators, in order.
-/

namespace Venafi

/-! ## Library functions used by the source -/

/-- Go error values, represented by their message. -/
abbrev GoError := String

/-- Scan of `strings.ReplaceAll` for a non-empty `old`: `skip` counts the
characters of the current match still to be dropped; outside a match the
leftmost occurrence of `old` is replaced and the scan resumes after it. -/
def replaceScan (old new : List Char) : Nat → List Char → List Char
  | _, [] => []
  | skip + 1, _ :: cs => replaceScan old new skip cs
  | 0, c :: cs =>
    if old.isPrefixOf (c :: cs) then new ++ replaceScan old new (old.length - 1) cs
    else c :: replaceScan old new 0 cs

/-- The Go function `strings.ReplaceAll(s, old, new)`: every non-overlapping
occurrence of `old`, taken from the left, is replaced by `new`; with an empty
`old`, `new` is inserted before every character and at the end. -/
def stringsReplaceAll (s old new : String) : String :=
  if old.data = [] then
    ⟨new.data ++ (s.data.map fun c => c :: new.data).flatten⟩
  else
    ⟨replaceScan old.data new.data 0 s.data⟩

/-- The Go call `fmt.Sprintf("%s:%s", a, b)`. -/
def sprintfColon (a b : String) : String :=
  a ++ ":" ++ b

/-- The constant `time.Second`, in nanoseconds (the unit of `time.Duration`). -/
def timeSecond : Int := 1000000000

/-! ## Data model -/

/-- The vcert type `certificate.SshCertRequest`. -/
structure SshCertRequest where
  Template : String := ""
  PolicyDN : String := ""
  ObjectName : String := ""
  DestinationAddresses : List String := []
  KeyId : String := ""
  Principals : List String := []
  ValidityPeriod : String := ""
  PublicKeyData : String := ""
  Extensions : List String := []
  ForceCommand : String := ""
  SourceAddresses : List String := []
  PickupID : String := ""
  Guid : String := ""
  IncludePrivateKeyData : Bool := false
  PrivateKeyPassphrase : String := ""
  PrivateKeyFormat : String := ""
  IncludeCertificateDetails : Bool := false
  Timeout : Int := 0
deriving DecidableEq, Repr

/-- The fields of the vcert type `certificate.SshCertificateDetails` read by the
source. -/
structure SshCertificateDetails where
  CertificateType : String := ""
  PublicKeyFingerprintSHA256 : String := ""
  CAFingerprintSHA256 : String := ""
  SerialNumber : String := ""
  ValidFrom : Int := 0
  ValidTo : Int := 0
deriving DecidableEq, Repr

/-- The fields of the vcert type `certificate.SshCertificateObject` read by the
source. -/
structure SshCertificateObject where
  DN : String := ""
  CertificateData : String := ""
  PrivateKeyData : String := ""
  PublicKeyData : String := ""
  CertificateDetails : SshCertificateDetails := {}
deriving DecidableEq, Repr

/-- The resource data `d`: the resource id and the attributes of the schema of
`resourceVenafiSshCertificate`.  Configuration attributes hold the value `d.Get`
returns for them (so `public_key_method` is "local" when the configuration
leaves it out); computed attributes are `none` until they are set. -/
structure ResourceData where
  id : String := ""
  key_id : String := ""
  template : String := ""
  key_passphrase : String := ""
  folder : String := ""
  force_command : String := ""
  key_size : Int := 0
  windows : Bool := false
  valid_hours : Int := 0
  object_name : String := ""
  public_key : String := ""
  public_key_method : String := "local"
  principal : List String := []
  principals : List String := []
  source_address : List String := []
  destination_address : List String := []
  extension : List String := []
  certificate : Option String := none
  private_key : Option String := none
  certificate_type : Option String := none
  public_key_fingerprint : Option String := none
  signing_ca : Option String := none
  serial : Option String := none
  valid_from : Option String := none
  valid_to : Option String := none
deriving DecidableEq, Repr

/-- The method `d.SetId`. -/
def ResourceData.SetId (d : ResourceData) (v : String) : ResourceData :=
  { d with id := v }

/-- The effect of a successful `d.Set(key, value)` on the attributes the source
writes. -/
def ResourceData.Set (d : ResourceData) (key value : String) : ResourceData :=
  if key = "public_key" then { d with public_key := value }
  else if key = "private_key" then { d with private_key := some value }
  else if key = "certificate" then { d with certificate := some value }
  else if key = "certificate_type" then { d with certificate_type := some value }
  else if key = "public_key_fingerprint" then { d with public_key_fingerprint := some value }
  else if key = "signing_ca" then { d with signing_ca := some value }
  else if key = "serial" then { d with serial := some value }
  else if key = "valid_from" then { d with valid_from := some value }
  else if key = "valid_to" then { d with valid_to := some value }
  else d

/-- The call `d.GetOk("certificate")`: the value, and whether the attribute has
been set to a non-zero value. -/
def ResourceData.GetOkCertificate (d : ResourceData) : String × Bool :=
  match d.certificate with
  | none => ("", false)
  | some v => (v, v != "")

/-- Non-nil diagnostics: `diag.FromErr(err)`, or the result of the package helper
`buildStandardDiagError(msg)`, which is defined outside this file and kept
uninterpreted. -/
inductive Diagnostics where
  | FromErr (err : GoError)
  | buildStandardDiagError (msg : String)
deriving DecidableEq, Repr

/-- The connector `cl` returned by `getConnection`. -/
structure Connector where
  RequestSSHCertificate : SshCertRequest → Except GoError SshCertificateObject
  RetrieveSSHCertificate : SshCertRequest → Except GoError SshCertificateObject

/-- The collaborators of the resource functions that are defined outside the
file: the package helpers `validateSshCertValues`, `getConnection` and
`buildSshCertRequest`, the vcert functions `util.GenerateSshKeyPair` and
`util.ConvertSecondsToTime` (followed by `String()`), and the error, if any,
that `d.Set(key, value)` reports. -/
structure Env where
  validateSshCertValues : ResourceData → Option GoError
  getConnection : Except GoError Connector
  buildSshCertRequest : ResourceData → SshCertRequest
  GenerateSshKeyPair : Int → String → String → Except GoError (String × String)
  ConvertSecondsToTime : Int → String
  setError : String → String → Option GoError

deriving instance DecidableEq for Except

/-- A call made to a collaborator, with its arguments and what it returned. -/
inductive Event where
  | getConnection (err : Option GoError)
  | GenerateSshKeyPair (keySize : Int) (passphrase comment : String)
      (res : Except GoError (String × String))
  | RequestSSHCertificate (req : SshCertRequest) (res : Except GoError SshCertificateObject)
  | RetrieveSSHCertificate (req : SshCertRequest) (res : Except GoError SshCertificateObject)
deriving DecidableEq

/-- What a resource function leaves behind: the diagnostics it returns (`none`
is Go's `nil`, success), the resource data, and the calls made, in order. -/
structure Outcome where
  diags : Option Diagnostics
  d : ResourceData
  calls : List Event

/-! ## The resource functions -/

/-- One `err = d.Set(key, value); if err != nil { return diag.FromErr(err) }`
step followed by the rest of the function. -/
def setThen (env : Env) (d : ResourceData) (key value : String)
    (rest : ResourceData → Option Diagnostics × ResourceData) :
    Option Diagnostics × ResourceData :=
  match env.setError key value with
  | some err => (some (Diagnostics.FromErr err), d)
  | none => rest (d.Set key value)

/-- Lines 279 to 316 of `resourceVenafiSshCertCreate`: the certificate and its
details are written to the resource data. -/
def storeDetails (env : Env) (d : ResourceData) (data : SshCertificateObject) :
    Option Diagnostics × ResourceData :=
  setThen env d "certificate" data.CertificateData fun d =>
  setThen env d "certificate_type" data.CertificateDetails.CertificateType fun d =>
  let pubKey := sprintfColon "SHA256" data.CertificateDetails.PublicKeyFingerprintSHA256
  setThen env d "public_key_fingerprint" pubKey fun d =>
  let signingCa := sprintfColon "SHA256" data.CertificateDetails.CAFingerprintSHA256
  setThen env d "signing_ca" signingCa fun d =>
  setThen env d "serial" data.CertificateDetails.SerialNumber fun d =>
  setThen env d "valid_from" (env.ConvertSecondsToTime data.CertificateDetails.ValidFrom) fun d =>
  setThen env d "valid_to" (env.ConvertSecondsToTime data.CertificateDetails.ValidTo) fun d =>
  (none, d)

/-- Lines 248 to 254 of `resourceVenafiSshCertCreate`: an empty private key in the
retrieved `data` is replaced by the local one, and a non-empty local public key
replaces the retrieved one. -/
def reconcileKeys (privateKey sPubKey : String) (data : SshCertificateObject) :
    SshCertificateObject :=
  let data := if data.PrivateKeyData = "" then { data with PrivateKeyData := privateKey } else data
  if sPubKey ≠ "" then { data with PublicKeyData := sPubKey } else data

/-- Lines 248 to 316 of `resourceVenafiSshCertCreate`: the retrieved `data` is
reconciled with the local key material and written to the resource data. -/
def storeCertificate (env : Env) (d : ResourceData) (method privateKey sPubKey : String)
    (data : SshCertificateObject) : Option Diagnostics × ResourceData :=
  let data := reconcileKeys privateKey sPubKey data
  if method ≠ "file" then
    setThen env d "public_key" data.PublicKeyData fun d =>
    if data.PrivateKeyData ≠ "" then
      let privKeyS := data.PrivateKeyData
      let windows := d.windows
      let privKeyS :=
        if !windows && method == "service" then stringsReplaceAll privKeyS "\r\n" "\n"
        else privKeyS
      setThen env d "private_key" privKeyS fun d => storeDetails env d data
    else storeDetails env d data
  else storeDetails env d data

/-- Lines 233 to 242 of `resourceVenafiSshCertCreate`: the retrieval request
for the pickup id `dn`. -/
def retrieveRequest (dn keyPassphrase : String) : SshCertRequest :=
  let retReq : SshCertRequest := { PickupID := dn, IncludeCertificateDetails := true }
  let retReq :=
    if keyPassphrase ≠ "" then { retReq with PrivateKeyPassphrase := keyPassphrase } else retReq
  { retReq with Timeout := 10 * timeSecond }

/-- Lines 226 to 316 of `resourceVenafiSshCertCreate`: the request is submitted,
the id is set, the certificate is retrieved and stored.  `calls` are the calls
made so far. -/
def submitAndRetrieve (env : Env) (cl : Connector) (d : ResourceData)
    (method keyPassphrase privateKey sPubKey : String) (req : SshCertRequest)
    (calls : List Event) : Outcome :=
  let submitted := cl.RequestSSHCertificate req
  let calls := calls ++ [Event.RequestSSHCertificate req submitted]
  match submitted with
  | .error err => ⟨some (Diagnostics.FromErr err), d, calls⟩
  | .ok reqData =>
    let d := d.SetId reqData.DN
    let retReq := retrieveRequest reqData.DN keyPassphrase
    let retrieved := cl.RetrieveSSHCertificate retReq
    let calls := calls ++ [Event.RetrieveSSHCertificate retReq retrieved]
    match retrieved with
    | .error err =>
      ⟨some (Diagnostics.FromErr ("failed to retrieve certificate: " ++ err)), d, calls⟩
    | .ok data =>
      let r := storeCertificate env d method privateKey sPubKey data
      ⟨r.1, r.2, calls⟩

/-- The function `resourceVenafiSshCertCreate`. -/
def resourceVenafiSshCertCreate (env : Env) (d : ResourceData) : Outcome :=
  match env.validateSshCertValues d with
  | some err => ⟨some (Diagnostics.FromErr err), d, []⟩
  | none =>
    let id := d.key_id
    let method := d.public_key_method
    let keyPassphrase := d.key_passphrase
    match env.getConnection with
    | .error err => ⟨some (Diagnostics.FromErr err), d, [Event.getConnection (some err)]⟩
    | .ok cl =>
      let calls := [Event.getConnection none]
      let req := env.buildSshCertRequest d
      if method = "local" then
        let keySize := d.key_size
        let keySize := if keySize ≤ 0 then 3072 else keySize
        let generated := env.GenerateSshKeyPair keySize keyPassphrase id
        let calls := calls ++ [Event.GenerateSshKeyPair keySize keyPassphrase id generated]
        match generated with
        | .error err => ⟨some (Diagnostics.FromErr err), d, calls⟩
        | .ok (privateKey, publicKey) =>
          let sPubKey := publicKey
          let req := { req with PublicKeyData := sPubKey }
          -- the second test, `method == "file"`, fails on this path
          submitAndRetrieve env cl d method keyPassphrase privateKey sPubKey req calls
      else if method = "file" then
        let pubKeyS := d.public_key
        if pubKeyS = "" then
          ⟨some (Diagnostics.buildStandardDiagError "public key is empty"), d, calls⟩
        else
          let req := { req with PublicKeyData := pubKeyS }
          submitAndRetrieve env cl d method keyPassphrase "" "" req calls
      else
        submitAndRetrieve env cl d method keyPassphrase "" "" req calls

/-- The function `resourceVenafiSshCertRead`. -/
def resourceVenafiSshCertRead (d : ResourceData) : Option Diagnostics × ResourceData :=
  let (certUntyped, ok) := d.GetOkCertificate
  if !ok then (none, d.SetId "")
  else
    let certStr := certUntyped
    if certStr = "" then (none, d.SetId "")
    else (none, d)

/-- The function `resourceVenafiSshCertDelete`. -/
def resourceVenafiSshCertDelete (d : ResourceData) : Option Diagnostics × ResourceData :=
  (none, d.SetId "")

/-! ## Runs of the create function -/

/-- The private key written by `storeCertificate`, when one is written: the
retrieved key, or the local one when the retrieved key is empty, with the line
endings normalised for the service method without `windows`. -/
def storedPrivateKey (d : ResourceData) (method privateKey : String)
    (data : SshCertificateObject) : String :=
  let k := if data.PrivateKeyData = "" then privateKey else data.PrivateKeyData
  if !d.windows && method == "service" then stringsReplaceAll k "\r\n" "\n" else k

/-- The three ways a run of `resourceVenafiSshCertCreate` reaches the submission:
the local key material, the request and the calls made before it, by method. -/
def Sourced (env : Env) (d : ResourceData) (privateKey sPubKey : String)
    (req : SshCertRequest) (pre : List Event) : Prop :=
  (d.public_key_method = "local" ∧
    env.GenerateSshKeyPair (if d.key_size ≤ 0 then 3072 else d.key_size) d.key_passphrase
      d.key_id = .ok (privateKey, sPubKey) ∧
    pre = [Event.getConnection none,
      Event.GenerateSshKeyPair (if d.key_size ≤ 0 then 3072 else d.key_size) d.key_passphrase
        d.key_id (.ok (privateKey, sPubKey))] ∧
    req = { env.buildSshCertRequest d with PublicKeyData := sPubKey }) ∨
  (d.public_key_method = "file" ∧ d.public_key ≠ "" ∧ privateKey = "" ∧ sPubKey = "" ∧
    pre = [Event.getConnection none] ∧
    req = { env.buildSshCertRequest d with PublicKeyData := d.public_key }) ∨
  (d.public_key_method ≠ "local" ∧ d.public_key_method ≠ "file" ∧ privateKey = "" ∧
    sPubKey = "" ∧ pre = [Event.getConnection none] ∧ req = env.buildSshCertRequest d)

/-- The runs of `resourceVenafiSshCertCreate`, one constructor for each place
where the function returns. -/
inductive Run (env : Env) (d : ResourceData) : Outcome → Prop where
  | invalid (err : GoError) (hv : env.validateSshCertValues d = some err) :
      Run env d ⟨some (Diagnostics.FromErr err), d, []⟩
  | noConnection (err : GoError) (hv : env.validateSshCertValues d = none)
      (hc : env.getConnection = .error err) :
      Run env d ⟨some (Diagnostics.FromErr err), d, [Event.getConnection (some err)]⟩
  | generationFailed (cl : Connector) (err : GoError)
      (hv : env.validateSshCertValues d = none) (hc : env.getConnection = .ok cl)
      (hm : d.public_key_method = "local")
      (hgen : env.GenerateSshKeyPair (if d.key_size ≤ 0 then 3072 else d.key_size)
        d.key_passphrase d.key_id = .error err) :
      Run env d ⟨some (Diagnostics.FromErr err), d,
        [Event.getConnection none,
          Event.GenerateSshKeyPair (if d.key_size ≤ 0 then 3072 else d.key_size)
            d.key_passphrase d.key_id (.error err)]⟩
  | emptyPublicKey (cl : Connector)
      (hv : env.validateSshCertValues d = none) (hc : env.getConnection = .ok cl)
      (hm : d.public_key_method = "file") (hempty : d.public_key = "") :
      Run env d ⟨some (Diagnostics.buildStandardDiagError "public key is empty"), d,
        [Event.getConnection none]⟩
  | submissionFailed (cl : Connector) (privateKey sPubKey : String) (req : SshCertRequest)
      (pre : List Event) (err : GoError)
      (hv : env.validateSshCertValues d = none) (hc : env.getConnection = .ok cl)
      (hs : Sourced env d privateKey sPubKey req pre)
      (hreq : cl.RequestSSHCertificate req = .error err) :
      Run env d ⟨some (Diagnostics.FromErr err), d,
        pre ++ [Event.RequestSSHCertificate req (.error err)]⟩
  | retrievalFailed (cl : Connector) (privateKey sPubKey : String) (req : SshCertRequest)
      (pre : List Event) (reqData : SshCertificateObject) (err : GoError)
      (hv : env.validateSshCertValues d = none) (hc : env.getConnection = .ok cl)
      (hs : Sourced env d privateKey sPubKey req pre)
      (hreq : cl.RequestSSHCertificate req = .ok reqData)
      (hret : cl.RetrieveSSHCertificate (retrieveRequest reqData.DN d.key_passphrase) =
        .error err) :
      Run env d ⟨some (Diagnostics.FromErr ("failed to retrieve certificate: " ++ err)),
        d.SetId reqData.DN,
        pre ++ [Event.RequestSSHCertificate req (.ok reqData),
          Event.RetrieveSSHCertificate (retrieveRequest reqData.DN d.key_passphrase)
            (.error err)]⟩
  | retrieved (cl : Connector) (privateKey sPubKey : String) (req : SshCertRequest)
      (pre : List Event) (reqData data : SshCertificateObject)
      (hv : env.validateSshCertValues d = none) (hc : env.getConnection = .ok cl)
      (hs : Sourced env d privateKey sPubKey req pre)
      (hreq : cl.RequestSSHCertificate req = .ok reqData)
      (hret : cl.RetrieveSSHCertificate (retrieveRequest reqData.DN d.key_passphrase) =
        .ok data) :
      Run env d
        ⟨(storeCertificate env (d.SetId reqData.DN) d.public_key_method privateKey sPubKey
            data).1,
          (storeCertificate env (d.SetId reqData.DN) d.public_key_method privateKey sPubKey
            data).2,
          pre ++ [Event.RequestSSHCertificate req (.ok reqData),
            Event.RetrieveSSHCertificate (retrieveRequest reqData.DN d.key_passphrase)
              (.ok data)]⟩

/-- The contract of `util.GenerateSshKeyPair`: a call that succeeds returns the
public key in authorized-keys form, followed by the comment, so the public key
it returns is never the empty string. -/
def GeneratorContract (env : Env) : Prop :=
  ∀ (keySize : Int) (passphrase comment privateKey publicKey : String),
    env.GenerateSshKeyPair keySize passphrase comment = .ok (privateKey, publicKey) →
    publicKey ≠ ""

/-- Modelled from the spec: the package helper `validateSshCertValues` is defined
outside this file.  Validation rejects exactly the configurations with the file
method and an empty `public_key`, or with both `principal` and `principals` set,
and accepts all others; the empty public key is reported by the error
"public key is empty". -/
def validateSshCertValues (d : ResourceData) : Option GoError :=
  if d.public_key_method = "file" ∧ d.public_key = "" then some "public key is empty"
  else if d.principal ≠ [] ∧ d.principals ≠ [] then
    some "principal: conflicts with principals"
  else none

/-! ## A concrete environment -/

/-- Modelled from the spec: the package helper `buildSshCertRequest` is defined
outside this file.  The signing request carries the identity, the template, the
folder, the force command, the validity in hours, the object name and the
principal, address and extension lists of the configuration; the public-key
material is left empty, to be filled in by the sourcing strategy. -/
def sampleBuildSshCertRequest (d : ResourceData) : SshCertRequest :=
  { KeyId := d.key_id
    Template := d.template
    PolicyDN := d.folder
    ForceCommand := d.force_command
    ValidityPeriod := if d.valid_hours > 0 then toString d.valid_hours ++ "h" else ""
    ObjectName := d.object_name
    Principals := if d.principals = [] then d.principal else d.principals
    SourceAddresses := d.source_address
    DestinationAddresses := d.destination_address
    Extensions := d.extension }

/-- A connector whose submission returns the handle `dn` and whose retrieval
returns `retrieved`. -/
def sampleConnector (dn : String) (retrieved : Except GoError SshCertificateObject) :
    Connector where
  RequestSSHCertificate := fun _ => .ok { DN := dn }
  RetrieveSSHCertificate := fun _ => retrieved

/-- An environment in which validation accepts, the connection is acquired, the
generator returns `generated`, the authority returns the handle `dn` and then
`retrieved`, and `d.Set` reports no error. -/
def sampleEnv (generated : Except GoError (String × String)) (dn : String)
    (retrieved : Except GoError SshCertificateObject) : Env where
  validateSshCertValues := fun _ => none
  getConnection := .ok (sampleConnector dn retrieved)
  buildSshCertRequest := sampleBuildSshCertRequest
  GenerateSshKeyPair := fun _ _ _ => generated
  ConvertSecondsToTime := fun seconds => toString seconds
  setError := fun _ _ => none

/-- The retrieval response of scenario C: a private key with a Windows line
ending. -/
def sampleServiceData : SshCertificateObject :=
  { CertificateData := "ssh-rsa-cert-v01@openssh.com AAAAcert"
    PrivateKeyData := "abc\r\ndef"
    PublicKeyData := "ssh-rsa AAAAservice"
    CertificateDetails :=
      { CertificateType := "client"
        PublicKeyFingerprintSHA256 := "ab12"
        CAFingerprintSHA256 := "cd34"
        SerialNumber := "7"
        ValidFrom := 1700000000
        ValidTo := 1700003600 } }

/-- The retrieval response of scenario A: no private key, and a public key
that differs from the locally generated one. -/
def sampleLocalData : SshCertificateObject :=
  { CertificateData := "ssh-rsa-cert-v01@openssh.com AAAAcert"
    PrivateKeyData := ""
    PublicKeyData := "ssh-rsa AAAAecho"
    CertificateDetails :=
      { CertificateType := "client"
        PublicKeyFingerprintSHA256 := "ab12"
        CAFingerprintSHA256 := "cd34"
        SerialNumber := "7"
        ValidFrom := 1700000000
        ValidTo := 1700003600 } }

/-- The configuration of scenario A. -/
def sampleLocalConfig : ResourceData :=
  { key_id := "svc1", template := "T1", public_key_method := "local", key_size := 2048 }

/-- A configuration with a caller-supplied public key. -/
def sampleFileConfig : ResourceData :=
  { key_id := "svc1", template := "T1", public_key_method := "file",
    public_key := "ssh-rsa AAAAfile" }

/-- A configuration for a key pair generated by the authority. -/
def sampleServiceConfig : ResourceData :=
  { key_id := "svc1", template := "T1", public_key_method := "service" }

/-- A stored resource: the service configuration with an id and a certificate. -/
def sampleStored : ResourceData :=
  { sampleServiceConfig with
    id := "ssh/svc1", certificate := some "ssh-rsa-cert-v01@openssh.com AAAAcert" }

/-- An environment whose authority rejects every submission. -/
def rejectingEnv : Env where
  validateSshCertValues := fun _ => none
  getConnection := .ok
    { RequestSSHCertificate := fun _ => .error "rejected"
      RetrieveSSHCertificate := fun _ => .error "unused" }
  buildSshCertRequest := sampleBuildSshCertRequest
  GenerateSshKeyPair := fun _ _ _ => .ok ("PRIVATE KEY", "ssh-rsa AAAAlocal")
  ConvertSecondsToTime := fun seconds => toString seconds
  setError := fun _ _ => none

theorem stringsReplaceAll_example :
    stringsReplaceAll "abc\r\ndef" "\r\n" "\n" = "abc\ndef" ∧
    stringsReplaceAll "\r\r\n\n\r\n" "\r\n" "\n" = "\r\n\n\n" ∧
    stringsReplaceAll "abc" "" "X" = "XaXbXcX" := by
  decide

theorem replaceScan_skip (cs rest : List Char) (h : ∀ c ∈ cs, c ≠ '\r') :
    replaceScan "\r\n".data "\n".data 0 (cs ++ rest) =
      cs ++ replaceScan "\r\n".data "\n".data 0 rest := by
  induction cs with
  | nil => rfl
  | cons c cs ih =>
    have hc : c ≠ '\r' := h c (by simp)
    have hpre : List.isPrefixOf "\r\n".data (c :: (cs ++ rest)) = false := by
      have : ('\r' == c) = false := by simpa using fun e => hc e.symm
      simp [List.isPrefixOf, this]
    rw [List.cons_append, replaceScan, hpre]
    simp only [Bool.false_eq_true, if_false]
    rw [ih (fun x hx => h x (by simp [hx]))]
    rfl

theorem replaceScan_crlf (rest : List Char) :
    replaceScan "\r\n".data "\n".data 0 ("\r\n".data ++ rest) =
      "\n".data ++ replaceScan "\r\n".data "\n".data 0 rest := by
  show replaceScan "\r\n".data "\n".data 0 ('\r' :: '\n' :: rest) = _
  rw [replaceScan]
  simp [List.isPrefixOf, replaceScan]

/-- The replacement on a key given line by line: a text without carriage return
is unchanged, and a line ended by "\r\n" becomes the line ended by "\n",
followed by the replacement of what comes after. -/
theorem stringsReplaceAll_crlf (line rest : String) (h : ∀ c ∈ line.data, c ≠ '\r') :
    stringsReplaceAll line "\r\n" "\n" = line ∧
    stringsReplaceAll (line ++ "\r\n" ++ rest) "\r\n" "\n" =
      line ++ "\n" ++ stringsReplaceAll rest "\r\n" "\n" := by
  have hold : ¬ ("\r\n".data = []) := by decide
  unfold stringsReplaceAll
  simp only [hold, if_false]
  constructor
  · have := replaceScan_skip line.data [] h
    simp only [List.append_nil] at this
    rw [this]
    simp [replaceScan]
  · apply String.ext
    simp only [String.data_append, List.append_assoc]
    rw [replaceScan_skip _ _ h, replaceScan_crlf]

/-! ## Frame lemmas -/

theorem setThen_frame {α : Type} (f : ResourceData → α) (env : Env) (d : ResourceData)
    (key value : String) (rest : ResourceData → Option Diagnostics × ResourceData)
    (hset : f (d.Set key value) = f d) (hrest : ∀ d1, f (rest d1).2 = f d1) :
    f (setThen env d key value rest).2 = f d := by
  unfold setThen
  split
  · rfl
  · rw [hrest, hset]

theorem setThen_success (env : Env) (d : ResourceData) (key value : String)
    (rest : ResourceData → Option Diagnostics × ResourceData)
    (h : (setThen env d key value rest).1 = none) :
    env.setError key value = none ∧ setThen env d key value rest = rest (d.Set key value) := by
  unfold setThen at h ⊢
  split at h
  · simp at h
  · rename_i hnone
    simp [hnone]

theorem storeDetails_frame {α : Type} (f : ResourceData → α) (env : Env) (d : ResourceData)
    (data : SshCertificateObject)
    (hf : ∀ (d1 : ResourceData) (key value : String),
      key ≠ "public_key" → key ≠ "private_key" → f (d1.Set key value) = f d1) :
    f (storeDetails env d data).2 = f d := by
  unfold storeDetails
  refine setThen_frame f _ _ _ _ _ (hf _ _ _ (by decide) (by decide)) fun d1 => ?_
  refine setThen_frame f _ _ _ _ _ (hf _ _ _ (by decide) (by decide)) fun d2 => ?_
  refine setThen_frame f _ _ _ _ _ (hf _ _ _ (by decide) (by decide)) fun d3 => ?_
  refine setThen_frame f _ _ _ _ _ (hf _ _ _ (by decide) (by decide)) fun d4 => ?_
  refine setThen_frame f _ _ _ _ _ (hf _ _ _ (by decide) (by decide)) fun d5 => ?_
  refine setThen_frame f _ _ _ _ _ (hf _ _ _ (by decide) (by decide)) fun d6 => ?_
  refine setThen_frame f _ _ _ _ _ (hf _ _ _ (by decide) (by decide)) fun d7 => ?_
  rfl

theorem Set_public_key (d : ResourceData) (key value : String)
    (h1 : key ≠ "public_key") (_h2 : key ≠ "private_key") :
    (d.Set key value).public_key = d.public_key := by
  unfold ResourceData.Set
  repeat' split
  all_goals first | rfl | contradiction

theorem Set_id (d : ResourceData) (key value : String) :
    (d.Set key value).id = d.id := by
  unfold ResourceData.Set
  repeat' split
  all_goals rfl

theorem storeDetails_success (env : Env) (d : ResourceData) (data : SshCertificateObject)
    (h : (storeDetails env d data).1 = none) :
    (storeDetails env d data).2 =
      { d with
        certificate := some data.CertificateData
        certificate_type := some data.CertificateDetails.CertificateType
        public_key_fingerprint :=
          some (sprintfColon "SHA256" data.CertificateDetails.PublicKeyFingerprintSHA256)
        signing_ca := some (sprintfColon "SHA256" data.CertificateDetails.CAFingerprintSHA256)
        serial := some data.CertificateDetails.SerialNumber
        valid_from := some (env.ConvertSecondsToTime data.CertificateDetails.ValidFrom)
        valid_to := some (env.ConvertSecondsToTime data.CertificateDetails.ValidTo) } := by
  unfold storeDetails at h ⊢
  obtain ⟨-, e1⟩ := setThen_success _ _ _ _ _ h
  rw [e1] at h ⊢
  obtain ⟨-, e2⟩ := setThen_success _ _ _ _ _ h
  rw [e2] at h ⊢
  obtain ⟨-, e3⟩ := setThen_success _ _ _ _ _ h
  rw [e3] at h ⊢
  obtain ⟨-, e4⟩ := setThen_success _ _ _ _ _ h
  rw [e4] at h ⊢
  obtain ⟨-, e5⟩ := setThen_success _ _ _ _ _ h
  rw [e5] at h ⊢
  obtain ⟨-, e6⟩ := setThen_success _ _ _ _ _ h
  rw [e6] at h ⊢
  obtain ⟨-, e7⟩ := setThen_success _ _ _ _ _ h
  rw [e7]
  simp [ResourceData.Set]

@[simp] theorem reconcileKeys_CertificateData (privateKey sPubKey : String)
    (data : SshCertificateObject) :
    (reconcileKeys privateKey sPubKey data).CertificateData = data.CertificateData := by
  unfold reconcileKeys
  split_ifs <;> rfl

@[simp] theorem reconcileKeys_CertificateDetails (privateKey sPubKey : String)
    (data : SshCertificateObject) :
    (reconcileKeys privateKey sPubKey data).CertificateDetails = data.CertificateDetails := by
  unfold reconcileKeys
  split_ifs <;> rfl

theorem reconcileKeys_PrivateKeyData (privateKey sPubKey : String)
    (data : SshCertificateObject) :
    (reconcileKeys privateKey sPubKey data).PrivateKeyData =
      if data.PrivateKeyData = "" then privateKey else data.PrivateKeyData := by
  unfold reconcileKeys
  split_ifs <;> simp_all

theorem reconcileKeys_PublicKeyData (privateKey sPubKey : String)
    (data : SshCertificateObject) :
    (reconcileKeys privateKey sPubKey data).PublicKeyData =
      if sPubKey ≠ "" then sPubKey else data.PublicKeyData := by
  unfold reconcileKeys
  split_ifs <;> simp_all

theorem storeDetails_congr (env : Env) (d : ResourceData) (data1 data2 : SshCertificateObject)
    (h1 : data1.CertificateData = data2.CertificateData)
    (h2 : data1.CertificateDetails = data2.CertificateDetails) :
    storeDetails env d data1 = storeDetails env d data2 := by
  unfold storeDetails
  rw [h1, h2]

theorem storeCertificate_success (env : Env) (d : ResourceData)
    (method privateKey sPubKey : String) (data : SshCertificateObject)
    (h : (storeCertificate env d method privateKey sPubKey data).1 = none) :
    (storeCertificate env d method privateKey sPubKey data).2.id = d.id ∧
    (storeCertificate env d method privateKey sPubKey data).2.certificate =
      some data.CertificateData ∧
    (storeCertificate env d method privateKey sPubKey data).2.certificate_type =
      some data.CertificateDetails.CertificateType ∧
    (storeCertificate env d method privateKey sPubKey data).2.public_key_fingerprint =
      some (sprintfColon "SHA256" data.CertificateDetails.PublicKeyFingerprintSHA256) ∧
    (storeCertificate env d method privateKey sPubKey data).2.signing_ca =
      some (sprintfColon "SHA256" data.CertificateDetails.CAFingerprintSHA256) ∧
    (storeCertificate env d method privateKey sPubKey data).2.serial =
      some data.CertificateDetails.SerialNumber ∧
    (storeCertificate env d method privateKey sPubKey data).2.valid_from =
      some (env.ConvertSecondsToTime data.CertificateDetails.ValidFrom) ∧
    (storeCertificate env d method privateKey sPubKey data).2.valid_to =
      some (env.ConvertSecondsToTime data.CertificateDetails.ValidTo) ∧
    (method = "file" →
      (storeCertificate env d method privateKey sPubKey data).2.public_key = d.public_key ∧
      (storeCertificate env d method privateKey sPubKey data).2.private_key = d.private_key) ∧
    (method ≠ "file" →
      (storeCertificate env d method privateKey sPubKey data).2.public_key =
        (if sPubKey ≠ "" then sPubKey else data.PublicKeyData) ∧
      (storeCertificate env d method privateKey sPubKey data).2.private_key =
        (if (if data.PrivateKeyData = "" then privateKey else data.PrivateKeyData) = "" then
          d.private_key
         else some (storedPrivateKey d method privateKey data))) := by
  have hcongr : ∀ d1 : ResourceData,
      storeDetails env d1 (reconcileKeys privateKey sPubKey data) = storeDetails env d1 data :=
    fun d1 => storeDetails_congr env d1 _ _ (by simp) (by simp)
  unfold storeCertificate at h ⊢
  simp only [hcongr, reconcileKeys_PrivateKeyData, reconcileKeys_PublicKeyData] at h ⊢
  by_cases hfile : method = "file"
  · simp only [hfile, ne_eq, not_true_eq_false, if_false] at h ⊢
    rw [storeDetails_success env d data h]
    simp
  · simp only [hfile, ne_eq, not_false_eq_true, if_true] at h ⊢
    obtain ⟨-, e1⟩ := setThen_success _ _ _ _ _ h
    rw [e1] at h ⊢
    by_cases hk : (if data.PrivateKeyData = "" then privateKey else data.PrivateKeyData) = ""
    · simp only [hk, not_true_eq_false, if_false, if_true] at h ⊢
      rw [storeDetails_success env _ data h]
      simp [ResourceData.Set]
    · simp only [hk, not_false_eq_true, if_true, if_false] at h ⊢
      obtain ⟨-, e2⟩ := setThen_success _ _ _ _ _ h
      rw [e2] at h ⊢
      rw [storeDetails_success env _ data h]
      simp [ResourceData.Set, storedPrivateKey]

/-! ## Runs that reach the retrieval -/

theorem submitAndRetrieve_retrieved (env : Env) (cl : Connector) (d : ResourceData)
    (method keyPassphrase privateKey sPubKey : String) (req : SshCertRequest)
    (pre : List Event) (retReq : SshCertRequest) (data : SshCertificateObject)
    (hpre : Event.RetrieveSSHCertificate retReq (.ok data) ∉ pre)
    (h : Event.RetrieveSSHCertificate retReq (.ok data) ∈
      (submitAndRetrieve env cl d method keyPassphrase privateKey sPubKey req pre).calls) :
    ∃ reqData : SshCertificateObject,
      cl.RequestSSHCertificate req = .ok reqData ∧
      retReq = retrieveRequest reqData.DN keyPassphrase ∧
      cl.RetrieveSSHCertificate retReq = .ok data ∧
      (submitAndRetrieve env cl d method keyPassphrase privateKey sPubKey req pre).calls =
        pre ++ [Event.RequestSSHCertificate req (.ok reqData),
          Event.RetrieveSSHCertificate retReq (.ok data)] ∧
      (submitAndRetrieve env cl d method keyPassphrase privateKey sPubKey req pre).diags =
        (storeCertificate env (d.SetId reqData.DN) method privateKey sPubKey data).1 ∧
      (submitAndRetrieve env cl d method keyPassphrase privateKey sPubKey req pre).d =
        (storeCertificate env (d.SetId reqData.DN) method privateKey sPubKey data).2 := by
  unfold submitAndRetrieve at h ⊢
  cases hreq : cl.RequestSSHCertificate req with
  | error err => simp [hreq, hpre] at h
  | ok reqData =>
    simp only [hreq] at h ⊢
    cases hret : cl.RetrieveSSHCertificate (retrieveRequest reqData.DN keyPassphrase) with
    | error err => simp [hret, hpre] at h
    | ok data1 =>
      simp only [hret, List.mem_append, List.mem_singleton, hpre, false_or, reduceCtorEq,
        Event.RetrieveSSHCertificate.injEq, Except.ok.injEq] at h
      obtain ⟨hr, hd⟩ := h
      subst hd
      subst hr
      refine ⟨reqData, rfl, rfl, hret, ?_, ?_, ?_⟩
      · simp [hret]
      · simp only [hret]
      · simp only [hret]

theorem create_retrieved (env : Env) (d : ResourceData) (retReq : SshCertRequest)
    (data : SshCertificateObject)
    (h : Event.RetrieveSSHCertificate retReq (.ok data) ∈
      (resourceVenafiSshCertCreate env d).calls) :
    ∃ (cl : Connector) (privateKey sPubKey : String) (req : SshCertRequest)
      (reqData : SshCertificateObject) (pre : List Event),
      env.validateSshCertValues d = none ∧ env.getConnection = .ok cl ∧
      Sourced env d privateKey sPubKey req pre ∧
      cl.RequestSSHCertificate req = .ok reqData ∧
      retReq = retrieveRequest reqData.DN d.key_passphrase ∧
      cl.RetrieveSSHCertificate retReq = .ok data ∧
      (resourceVenafiSshCertCreate env d).calls =
        pre ++ [Event.RequestSSHCertificate req (.ok reqData),
          Event.RetrieveSSHCertificate retReq (.ok data)] ∧
      (resourceVenafiSshCertCreate env d).diags =
        (storeCertificate env (d.SetId reqData.DN) d.public_key_method privateKey sPubKey
          data).1 ∧
      (resourceVenafiSshCertCreate env d).d =
        (storeCertificate env (d.SetId reqData.DN) d.public_key_method privateKey sPubKey
          data).2 := by
  unfold resourceVenafiSshCertCreate at h ⊢
  cases hv : env.validateSshCertValues d with
  | some err => simp [hv] at h
  | none =>
    cases hc : env.getConnection with
    | error err => simp [hv, hc] at h
    | ok cl =>
      simp only [hv, hc] at h ⊢
      by_cases hlocal : d.public_key_method = "local"
      · simp only [hlocal, if_true] at h ⊢
        cases hgen : env.GenerateSshKeyPair (if d.key_size ≤ 0 then 3072 else d.key_size)
            d.key_passphrase d.key_id with
        | error err => simp [hgen] at h
        | ok keys =>
          obtain ⟨privateKey, publicKey⟩ := keys
          simp only [hgen] at h ⊢
          obtain ⟨reqData, h1, h2, h3, h4, h5, h6⟩ :=
            submitAndRetrieve_retrieved env cl d _ _ _ _ _ _ retReq data (by simp) h
          exact ⟨cl, privateKey, publicKey, _, reqData, _, trivial, rfl,
            Or.inl ⟨hlocal, hgen, rfl, rfl⟩, h1, h2, h3, h4, h5, h6⟩
      · simp only [hlocal, if_false] at h ⊢
        by_cases hfile : d.public_key_method = "file"
        · simp only [hfile, if_true] at h ⊢
          by_cases hempty : d.public_key = ""
          · simp [hempty] at h
          · simp only [hempty, if_false] at h ⊢
            obtain ⟨reqData, h1, h2, h3, h4, h5, h6⟩ :=
              submitAndRetrieve_retrieved env cl d _ _ _ _ _ _ retReq data (by simp) h
            exact ⟨cl, "", "", _, reqData, _, trivial, rfl,
              Or.inr (Or.inl ⟨hfile, hempty, rfl, rfl, rfl, rfl⟩), h1, h2, h3, h4, h5, h6⟩
        · simp only [hfile, if_false] at h ⊢
          obtain ⟨reqData, h1, h2, h3, h4, h5, h6⟩ :=
            submitAndRetrieve_retrieved env cl d _ _ _ _ _ _ retReq data (by simp) h
          exact ⟨cl, "", "", _, reqData, _, trivial, rfl,
            Or.inr (Or.inr ⟨hlocal, hfile, rfl, rfl, rfl, rfl⟩), h1, h2, h3, h4, h5, h6⟩

theorem submitAndRetrieve_run (env : Env) (cl : Connector) (d : ResourceData)
    (privateKey sPubKey : String) (req : SshCertRequest) (pre : List Event)
    (hv : env.validateSshCertValues d = none) (hc : env.getConnection = .ok cl)
    (hs : Sourced env d privateKey sPubKey req pre) :
    Run env d
      (submitAndRetrieve env cl d d.public_key_method d.key_passphrase privateKey sPubKey req
        pre) := by
  unfold submitAndRetrieve
  cases hreq : cl.RequestSSHCertificate req with
  | error err => exact Run.submissionFailed cl privateKey sPubKey req pre err hv hc hs hreq
  | ok reqData =>
    simp only []
    cases hret : cl.RetrieveSSHCertificate (retrieveRequest reqData.DN d.key_passphrase) with
    | error err =>
      simpa using Run.retrievalFailed cl privateKey sPubKey req pre reqData err hv hc hs hreq hret
    | ok data =>
      simpa using Run.retrieved cl privateKey sPubKey req pre reqData data hv hc hs hreq hret

theorem create_run (env : Env) (d : ResourceData) :
    Run env d (resourceVenafiSshCertCreate env d) := by
  unfold resourceVenafiSshCertCreate
  cases hv : env.validateSshCertValues d with
  | some err => exact Run.invalid err hv
  | none =>
    cases hc : env.getConnection with
    | error err => exact Run.noConnection err hv hc
    | ok cl =>
      simp only []
      by_cases hlocal : d.public_key_method = "local"
      · simp only [hlocal, if_true]
        cases hgen : env.GenerateSshKeyPair (if d.key_size ≤ 0 then 3072 else d.key_size)
            d.key_passphrase d.key_id with
        | error err => exact Run.generationFailed cl err hv hc hlocal hgen
        | ok keys =>
          obtain ⟨privateKey, publicKey⟩ := keys
          simp only []
          have h := submitAndRetrieve_run env cl d privateKey publicKey _ _ hv hc
            (Or.inl ⟨hlocal, hgen, rfl, rfl⟩)
          rw [hlocal] at h
          exact h
      · simp only [hlocal, if_false]
        by_cases hfile : d.public_key_method = "file"
        · simp only [hfile, if_true]
          by_cases hempty : d.public_key = ""
          · simp only [hempty, if_true]
            exact Run.emptyPublicKey cl hv hc hfile hempty
          · simp only [hempty, if_false]
            have h := submitAndRetrieve_run env cl d "" "" _ _ hv hc
              (Or.inr (Or.inl ⟨hfile, hempty, rfl, rfl, rfl, rfl⟩))
            rw [hfile] at h
            exact h
        · simp only [hfile, if_false]
          exact submitAndRetrieve_run env cl d "" "" _ _ hv hc
            (Or.inr (Or.inr ⟨hlocal, hfile, rfl, rfl, rfl, rfl⟩))

theorem Sourced_pre (env : Env) (d : ResourceData) (privateKey sPubKey : String)
    (req : SshCertRequest) (pre : List Event) (hs : Sourced env d privateKey sPubKey req pre) :
    (∀ r res, Event.RequestSSHCertificate r res ∉ pre) ∧
    (∀ r res, Event.RetrieveSSHCertificate r res ∉ pre) ∧
    (∀ keySize passphrase comment res,
      Event.GenerateSshKeyPair keySize passphrase comment res ∈ pre →
      d.public_key_method = "local" ∧ res = .ok (privateKey, sPubKey) ∧
        req.PublicKeyData = sPubKey) := by
  rcases hs with ⟨hm, -, hpre, hreq⟩ | ⟨-, -, -, -, hpre, -⟩ | ⟨-, -, -, -, hpre, -⟩ <;>
    subst hpre
  · subst hreq
    refine ⟨by simp, by simp, ?_⟩
    intro keySize passphrase comment res hmem
    simp only [List.mem_cons, reduceCtorEq, false_or, Event.GenerateSshKeyPair.injEq,
      List.mem_singleton, List.not_mem_nil, or_false] at hmem
    exact ⟨hm, hmem.2.2.2, rfl⟩
  · exact ⟨by simp, by simp, by simp⟩
  · exact ⟨by simp, by simp, by simp⟩

theorem storeCertificate_id (env : Env) (d : ResourceData)
    (method privateKey sPubKey : String) (data : SshCertificateObject) :
    (storeCertificate env d method privateKey sPubKey data).2.id = d.id := by
  have hdetails : ∀ d1 data1, (storeDetails env d1 data1).2.id = d1.id := fun d1 data1 =>
    storeDetails_frame (fun r => r.id) env d1 data1 (fun d2 key value _ _ => Set_id d2 key value)
  unfold storeCertificate
  simp only []
  split
  · refine setThen_frame (fun r => r.id) _ _ _ _ _ (Set_id _ _ _) fun d1 => ?_
    split
    · exact setThen_frame (fun r => r.id) _ _ _ _ _ (Set_id _ _ _) fun d2 => hdetails _ _
    · exact hdetails _ _
  · exact hdetails _ _

theorem sprintfColon_SHA256 (v : String) : sprintfColon "SHA256" v = "SHA256:" ++ v := by
  unfold sprintfColon
  rw [String.append_assoc]
  rfl

theorem drop_SHA256 (v : String) : ("SHA256:" ++ v).drop 7 = v := by
  rw [String.drop_eq]
  rfl

theorem local_run (env : Env) (d : ResourceData) (keySize : Int) (passphrase comment : String)
    (privateKey publicKey : String) (retReq : SshCertRequest) (data : SshCertificateObject)
    (hm : d.public_key_method = "local")
    (hgen : Event.GenerateSshKeyPair keySize passphrase comment (.ok (privateKey, publicKey)) ∈
      (resourceVenafiSshCertCreate env d).calls)
    (hret : Event.RetrieveSSHCertificate retReq (.ok data) ∈
      (resourceVenafiSshCertCreate env d).calls) :
    ∃ reqData : SshCertificateObject,
      (resourceVenafiSshCertCreate env d).calls =
        [Event.getConnection none,
          Event.GenerateSshKeyPair keySize passphrase comment (.ok (privateKey, publicKey)),
          Event.RequestSSHCertificate
            { env.buildSshCertRequest d with PublicKeyData := publicKey } (.ok reqData),
          Event.RetrieveSSHCertificate retReq (.ok data)] ∧
      (resourceVenafiSshCertCreate env d).diags =
        (storeCertificate env (d.SetId reqData.DN) "local" privateKey publicKey data).1 ∧
      (resourceVenafiSshCertCreate env d).d =
        (storeCertificate env (d.SetId reqData.DN) "local" privateKey publicKey data).2 := by
  obtain ⟨cl, priv, spub, req, reqData, pre, -, -, hs, -, -, -, hcalls, hdiag, hd⟩ :=
    create_retrieved env d retReq data hret
  rcases hs with ⟨-, -, hpre, hreq⟩ | ⟨h, -⟩ | ⟨h, -⟩
  · subst hpre hreq
    rw [hcalls] at hgen
    simp only [List.cons_append, List.nil_append, List.mem_cons, reduceCtorEq, false_or,
      Event.GenerateSshKeyPair.injEq, Except.ok.injEq, Prod.mk.injEq, List.mem_singleton,
      or_false, List.not_mem_nil] at hgen
    obtain ⟨h1, h2, h3, h4, h5⟩ := hgen
    subst h4 h5
    refine ⟨reqData, ?_, ?_, ?_⟩
    · rw [hcalls, ← h1, ← h2, ← h3]
      rfl
    · rw [hdiag, hm]
    · rw [hd, hm]
  · rw [hm] at h; exact absurd h (by decide)
  · exact absurd hm h

/-- Every generator call recorded in the trace carries what the generator
returned for its arguments. -/
theorem generate_event_sound (env : Env) (d : ResourceData) (keySize : Int)
    (passphrase comment : String) (res : Except GoError (String × String))
    (hmem : Event.GenerateSshKeyPair keySize passphrase comment res ∈
      (resourceVenafiSshCertCreate env d).calls) :
    env.GenerateSshKeyPair keySize passphrase comment = res := by
  have hsourced : ∀ privateKey sPubKey req pre, Sourced env d privateKey sPubKey req pre →
      Event.GenerateSshKeyPair keySize passphrase comment res ∈ pre →
      env.GenerateSshKeyPair keySize passphrase comment = res := by
    intro privateKey sPubKey req pre hs hin
    rcases hs with ⟨-, hgen, hpre, -⟩ | ⟨-, -, -, -, hpre, -⟩ | ⟨-, -, -, -, hpre, -⟩ <;>
      subst hpre <;>
      simp only [List.mem_cons, reduceCtorEq, false_or, Event.GenerateSshKeyPair.injEq,
        List.mem_singleton, List.not_mem_nil, or_false] at hin
    obtain ⟨h1, h2, h3, h4⟩ := hin
    rw [h1, h2, h3, h4]
    exact hgen
  have hrun := create_run env d
  generalize resourceVenafiSshCertCreate env d = o at hrun hmem
  cases hrun with
  | invalid err hv => simp at hmem
  | noConnection err hv hc => simp at hmem
  | generationFailed cl err hv hc hm hgen =>
    simp only [List.mem_cons, reduceCtorEq, false_or, Event.GenerateSshKeyPair.injEq,
      List.mem_singleton, List.not_mem_nil, or_false] at hmem
    obtain ⟨h1, h2, h3, h4⟩ := hmem
    rw [h1, h2, h3, h4]
    exact hgen
  | emptyPublicKey cl hv hc hm hempty => simp at hmem
  | submissionFailed cl privateKey sPubKey req pre err hv hc hs hreq =>
    simp only [List.mem_append, List.mem_singleton, reduceCtorEq, or_false] at hmem
    exact hsourced _ _ _ _ hs hmem
  | retrievalFailed cl privateKey sPubKey req pre reqData err hv hc hs hreq hret =>
    simp only [List.mem_append, List.mem_cons, List.mem_singleton, reduceCtorEq, or_false,
      List.not_mem_nil] at hmem
    exact hsourced _ _ _ _ hs hmem
  | retrieved cl privateKey sPubKey req pre reqData data hv hc hs hreq hret =>
    simp only [List.mem_append, List.mem_cons, List.mem_singleton, reduceCtorEq, or_false,
      List.not_mem_nil] at hmem
    exact hsourced _ _ _ _ hs hmem

/-- With the local method, a non-empty generated public key is the one a
successful create stores, whatever public key the retrieve call returns. -/
theorem local_public_key_of_nonempty (env : Env) (d : ResourceData) (keySize : Int)
    (passphrase comment privateKey publicKey : String) (retReq : SshCertRequest)
    (data : SshCertificateObject)
    (hm : d.public_key_method = "local")
    (hgen : Event.GenerateSshKeyPair keySize passphrase comment (.ok (privateKey, publicKey)) ∈
      (resourceVenafiSshCertCreate env d).calls)
    (hret : Event.RetrieveSSHCertificate retReq (.ok data) ∈
      (resourceVenafiSshCertCreate env d).calls)
    (hok : (resourceVenafiSshCertCreate env d).diags = none)
    (hne : publicKey ≠ "") :
    (resourceVenafiSshCertCreate env d).d.public_key = publicKey := by
  obtain ⟨reqData, -, hdiag, hd⟩ :=
    local_run env d keySize passphrase comment privateKey publicKey retReq data hm hgen hret
  rw [hdiag] at hok
  have h := (storeCertificate_success env _ _ _ _ _ hok).2.2.2.2.2.2.2.2.2 (by decide)
  rw [hd, h.1]
  simp [hne]

/-- The request of every submission: with the file method its `PublicKeyData` is
the configured, non-empty `public_key`; with the local method it is the public
key of a successful generator call; for any other method the request is the
one `buildSshCertRequest` built. -/
theorem submitted_request (env : Env) (d : ResourceData) (req : SshCertRequest)
    (res : Except GoError SshCertificateObject)
    (hmem : Event.RequestSSHCertificate req res ∈ (resourceVenafiSshCertCreate env d).calls) :
    (d.public_key_method = "file" → req.PublicKeyData = d.public_key ∧ req.PublicKeyData ≠ "") ∧
    (d.public_key_method = "local" →
      ∃ keySize privateKey, Event.GenerateSshKeyPair keySize d.key_passphrase d.key_id
        (.ok (privateKey, req.PublicKeyData)) ∈ (resourceVenafiSshCertCreate env d).calls) ∧
    (d.public_key_method ≠ "local" → d.public_key_method ≠ "file" →
      req = env.buildSshCertRequest d) := by
  have hsourced : ∀ privateKey sPubKey req1 pre, Sourced env d privateKey sPubKey req1 pre →
      (d.public_key_method = "file" →
        req1.PublicKeyData = d.public_key ∧ req1.PublicKeyData ≠ "") ∧
      (d.public_key_method = "local" →
        ∃ keySize privateKey, Event.GenerateSshKeyPair keySize d.key_passphrase d.key_id
          (.ok (privateKey, req1.PublicKeyData)) ∈ pre) ∧
      (d.public_key_method ≠ "local" → d.public_key_method ≠ "file" →
        req1 = env.buildSshCertRequest d) := by
    intro privateKey sPubKey req1 pre hs
    rcases hs with ⟨h, -, hpre, hreq⟩ | ⟨h, hne, -, -, -, hreq⟩ | ⟨h1, h2, -, -, -, hreq⟩
    · subst hpre hreq
      refine ⟨fun hf => ?_,
        fun _ => ⟨if d.key_size ≤ 0 then 3072 else d.key_size, privateKey, by simp⟩,
        fun hl => absurd h hl⟩
      rw [h] at hf
      exact absurd hf (by decide)
    · subst hreq
      refine ⟨fun _ => ⟨rfl, hne⟩, fun hl => ?_, fun _ hf => absurd h hf⟩
      rw [h] at hl
      exact absurd hl (by decide)
    · exact ⟨fun hf => absurd hf h2, fun hl => absurd hl h1, fun _ _ => hreq⟩
  have hrun := create_run env d
  generalize resourceVenafiSshCertCreate env d = o at hrun hmem
  have hlift : ∀ (pre tail : List Event) (req1 : SshCertRequest),
      (d.public_key_method = "local" →
        ∃ keySize privateKey, Event.GenerateSshKeyPair keySize d.key_passphrase d.key_id
          (.ok (privateKey, req1.PublicKeyData)) ∈ pre) →
      (d.public_key_method = "local" →
        ∃ keySize privateKey, Event.GenerateSshKeyPair keySize d.key_passphrase d.key_id
          (.ok (privateKey, req1.PublicKeyData)) ∈ pre ++ tail) := by
    intro pre tail req1 h hl
    obtain ⟨keySize, privateKey, hin⟩ := h hl
    exact ⟨keySize, privateKey, List.mem_append_left _ hin⟩
  cases hrun with
  | invalid err hv => simp at hmem
  | noConnection err hv hc => simp at hmem
  | generationFailed cl err hv hc hm hgen => simp at hmem
  | emptyPublicKey cl hv hc hm hempty => simp at hmem
  | submissionFailed cl privateKey sPubKey req1 pre err hv hc hs hreq =>
    obtain ⟨h1, -, -⟩ := Sourced_pre env d privateKey sPubKey req1 pre hs
    simp only [List.mem_append, List.mem_singleton, h1, false_or,
      Event.RequestSSHCertificate.injEq] at hmem
    obtain ⟨hr, -⟩ := hmem
    subst hr
    obtain ⟨k1, k2, k3⟩ := hsourced _ _ _ _ hs
    exact ⟨k1, hlift _ _ _ k2, k3⟩
  | retrievalFailed cl privateKey sPubKey req1 pre reqData err hv hc hs hreq hret =>
    obtain ⟨h1, -, -⟩ := Sourced_pre env d privateKey sPubKey req1 pre hs
    simp only [List.mem_append, List.mem_cons, List.mem_singleton, h1, false_or, reduceCtorEq,
      or_false, Event.RequestSSHCertificate.injEq, List.not_mem_nil] at hmem
    obtain ⟨hr, -⟩ := hmem
    subst hr
    obtain ⟨k1, k2, k3⟩ := hsourced _ _ _ _ hs
    exact ⟨k1, hlift _ _ _ k2, k3⟩
  | retrieved cl privateKey sPubKey req1 pre reqData data hv hc hs hreq hret =>
    obtain ⟨h1, -, -⟩ := Sourced_pre env d privateKey sPubKey req1 pre hs
    simp only [List.mem_append, List.mem_cons, List.mem_singleton, h1, false_or, reduceCtorEq,
      or_false, Event.RequestSSHCertificate.injEq, List.not_mem_nil] at hmem
    obtain ⟨hr, -⟩ := hmem
    subst hr
    obtain ⟨k1, k2, k3⟩ := hsourced _ _ _ _ hs
    exact ⟨k1, hlift _ _ _ k2, k3⟩

/-! ## Claims -/

/-- C2: with `public_key_method = "local"` and a generator that keeps its contract,
for every public key the generator returns and every public key the retrieve
call returns, a successful create stores in `public_key` exactly the generated
public key, not the one returned by the authority, even when the two differ. -/
theorem local_public_key_stored (env : Env) (d : ResourceData) (keySize : Int)
    (passphrase comment privateKey publicKey : String) (retReq : SshCertRequest)
    (data : SshCertificateObject)
    (hcontract : GeneratorContract env)
    (hm : d.public_key_method = "local")
    (hgen : Event.GenerateSshKeyPair keySize passphrase comment (.ok (privateKey, publicKey)) ∈
      (resourceVenafiSshCertCreate env d).calls)
    (hret : Event.RetrieveSSHCertificate retReq (.ok data) ∈
      (resourceVenafiSshCertCreate env d).calls)
    (hok : (resourceVenafiSshCertCreate env d).diags = none) :
    (resourceVenafiSshCertCreate env d).d.public_key = publicKey :=
  local_public_key_of_nonempty env d keySize passphrase comment privateKey publicKey retReq data
    hm hgen hret hok
    (hcontract keySize passphrase comment privateKey publicKey
      (generate_event_sound env d keySize passphrase comment _ hgen))

/-- The theorem `local_public_key_stored` on a sample run: the authority returns
"ssh-rsa AAAAecho", the stored key is the generated "ssh-rsa AAAAlocal". -/
theorem local_public_key_stored_witness :
    sampleLocalData.PublicKeyData = "ssh-rsa AAAAecho" ∧
    (resourceVenafiSshCertCreate
      (sampleEnv (.ok ("PRIVATE KEY", "ssh-rsa AAAAlocal")) "ssh/svc1" (.ok sampleLocalData))
      sampleLocalConfig).d.public_key = "ssh-rsa AAAAlocal" :=
  ⟨rfl, local_public_key_stored
    (sampleEnv (.ok ("PRIVATE KEY", "ssh-rsa AAAAlocal")) "ssh/svc1" (.ok sampleLocalData))
    sampleLocalConfig 2048 "" "svc1" "PRIVATE KEY" "ssh-rsa AAAAlocal"
    (retrieveRequest "ssh/svc1" "") sampleLocalData
    (by
      intro _ _ _ _ publicKey hgen
      simp only [sampleEnv, Except.ok.injEq, Prod.mk.injEq] at hgen
      rw [← hgen.2]
      decide)
    rfl (by decide) (by decide) (by decide)⟩

/-- C3: every call of the key-pair generator is made with
`public_key_method = "local"`, with key size 3072 when the configured `key_size`
is at most 0 and the configured `key_size` when it is positive, and with the
configured `key_passphrase` and `key_id`; and with the local method the generator
is called as soon as validation and the connection succeed. -/
theorem generator_arguments (env : Env) (d : ResourceData) :
    (∀ keySize passphrase comment res,
      Event.GenerateSshKeyPair keySize passphrase comment res ∈
        (resourceVenafiSshCertCreate env d).calls →
      d.public_key_method = "local" ∧ (d.key_size ≤ 0 → keySize = 3072) ∧
        (0 < d.key_size → keySize = d.key_size) ∧ passphrase = d.key_passphrase ∧
        comment = d.key_id) ∧
    (d.public_key_method = "local" → env.validateSshCertValues d = none →
      (∃ cl, env.getConnection = .ok cl) →
      ∃ res, Event.GenerateSshKeyPair (if d.key_size ≤ 0 then 3072 else d.key_size)
        d.key_passphrase d.key_id res ∈ (resourceVenafiSshCertCreate env d).calls) := by
  have hrun := create_run env d
  generalize resourceVenafiSshCertCreate env d = o at hrun
  have hsize : ∀ keySize : Int, keySize = (if d.key_size ≤ 0 then 3072 else d.key_size) →
      (d.key_size ≤ 0 → keySize = 3072) ∧ (0 < d.key_size → keySize = d.key_size) := by
    intro keySize h
    subst h
    constructor
    · intro hle; simp [hle]
    · intro hlt; simp [not_le.mpr hlt]
  constructor
  · intro keySize passphrase comment res hmem
    cases hrun with
    | invalid err hv => simp at hmem
    | noConnection err hv hc => simp at hmem
    | generationFailed cl err hv hc hm hgen =>
      simp only [List.mem_cons, reduceCtorEq, false_or, Event.GenerateSshKeyPair.injEq,
        List.mem_singleton, List.not_mem_nil, or_false] at hmem
      obtain ⟨h1, h2, h3, -⟩ := hmem
      exact ⟨hm, (hsize _ h1).1, (hsize _ h1).2, h2, h3⟩
    | emptyPublicKey cl hv hc hm hempty => simp at hmem
    | submissionFailed cl privateKey sPubKey req pre err hv hc hs hreq =>
      rcases hs with ⟨hm, -, hpre, -⟩ | ⟨-, -, -, -, hpre, -⟩ | ⟨-, -, -, -, hpre, -⟩ <;>
        subst hpre <;>
        simp only [List.cons_append, List.nil_append, List.mem_cons, reduceCtorEq, false_or,
          Event.GenerateSshKeyPair.injEq, List.mem_singleton, List.not_mem_nil, or_false]
          at hmem
      obtain ⟨h1, h2, h3, -⟩ := hmem
      exact ⟨hm, (hsize _ h1).1, (hsize _ h1).2, h2, h3⟩
    | retrievalFailed cl privateKey sPubKey req pre reqData err hv hc hs hreq hret =>
      rcases hs with ⟨hm, -, hpre, -⟩ | ⟨-, -, -, -, hpre, -⟩ | ⟨-, -, -, -, hpre, -⟩ <;>
        subst hpre <;>
        simp only [List.cons_append, List.nil_append, List.mem_cons, reduceCtorEq, false_or,
          Event.GenerateSshKeyPair.injEq, List.mem_singleton, List.not_mem_nil, or_false]
          at hmem
      obtain ⟨h1, h2, h3, -⟩ := hmem
      exact ⟨hm, (hsize _ h1).1, (hsize _ h1).2, h2, h3⟩
    | retrieved cl privateKey sPubKey req pre reqData data hv hc hs hreq hret =>
      rcases hs with ⟨hm, -, hpre, -⟩ | ⟨-, -, -, -, hpre, -⟩ | ⟨-, -, -, -, hpre, -⟩ <;>
        subst hpre <;>
        simp only [List.cons_append, List.nil_append, List.mem_cons, reduceCtorEq, false_or,
          Event.GenerateSshKeyPair.injEq, List.mem_singleton, List.not_mem_nil, or_false]
          at hmem
      obtain ⟨h1, h2, h3, -⟩ := hmem
      exact ⟨hm, (hsize _ h1).1, (hsize _ h1).2, h2, h3⟩
  · intro hlocal hvalid hconn
    obtain ⟨cl0, hcl0⟩ := hconn
    have hnotfile : d.public_key_method ≠ "file" := by rw [hlocal]; decide
    cases hrun with
    | invalid err hv => rw [hv] at hvalid; exact absurd hvalid (by simp)
    | noConnection err hv hc => rw [hc] at hcl0; exact absurd hcl0 (by simp)
    | generationFailed cl err hv hc hm hgen => exact ⟨.error err, by simp⟩
    | emptyPublicKey cl hv hc hm hempty => exact absurd hm hnotfile
    | submissionFailed cl privateKey sPubKey req pre err hv hc hs hreq =>
      rcases hs with ⟨-, -, hpre, -⟩ | ⟨hm, -⟩ | ⟨hm, -⟩
      · subst hpre; exact ⟨.ok (privateKey, sPubKey), by simp⟩
      · exact absurd hm hnotfile
      · exact absurd hlocal hm
    | retrievalFailed cl privateKey sPubKey req pre reqData err hv hc hs hreq hret =>
      rcases hs with ⟨-, -, hpre, -⟩ | ⟨hm, -⟩ | ⟨hm, -⟩
      · subst hpre; exact ⟨.ok (privateKey, sPubKey), by simp⟩
      · exact absurd hm hnotfile
      · exact absurd hlocal hm
    | retrieved cl privateKey sPubKey req pre reqData data hv hc hs hreq hret =>
      rcases hs with ⟨-, -, hpre, -⟩ | ⟨hm, -⟩ | ⟨hm, -⟩
      · subst hpre; exact ⟨.ok (privateKey, sPubKey), by simp⟩
      · exact absurd hm hnotfile
      · exact absurd hlocal hm

/-- The theorem `generator_arguments` on a sample run. -/
theorem generator_arguments_witness :
    (sampleLocalConfig.public_key_method = "local" ∧
      (sampleLocalConfig.key_size ≤ 0 → (2048 : Int) = 3072) ∧
      (0 < sampleLocalConfig.key_size → (2048 : Int) = sampleLocalConfig.key_size) ∧
      "" = sampleLocalConfig.key_passphrase ∧ "svc1" = sampleLocalConfig.key_id) ∧
    (({ sampleLocalConfig with key_size := -1, key_passphrase := "secret" } :
        ResourceData).public_key_method = "local" ∧
      (({ sampleLocalConfig with key_size := -1, key_passphrase := "secret" } :
        ResourceData).key_size ≤ 0 → (3072 : Int) = 3072) ∧
      (0 < ({ sampleLocalConfig with key_size := -1, key_passphrase := "secret" } :
        ResourceData).key_size →
        (3072 : Int) = ({ sampleLocalConfig with key_size := -1, key_passphrase := "secret" } :
          ResourceData).key_size) ∧
      "secret" = ({ sampleLocalConfig with key_size := -1, key_passphrase := "secret" } :
        ResourceData).key_passphrase ∧
      "svc1" = ({ sampleLocalConfig with key_size := -1, key_passphrase := "secret" } :
        ResourceData).key_id) :=
  ⟨(generator_arguments
      (sampleEnv (.ok ("PRIVATE KEY", "ssh-rsa AAAAlocal")) "ssh/svc1" (.ok sampleLocalData))
      sampleLocalConfig).1 2048 "" "svc1" (.ok ("PRIVATE KEY", "ssh-rsa AAAAlocal")) (by decide),
    (generator_arguments
      (sampleEnv (.ok ("PRIVATE KEY", "ssh-rsa AAAAlocal")) "ssh/svc1" (.ok sampleLocalData))
      { sampleLocalConfig with key_size := -1, key_passphrase := "secret" }).1 3072 "secret"
      "svc1" (.ok ("PRIVATE KEY", "ssh-rsa AAAAlocal")) (by decide)⟩

/-- C4: with `public_key_method = "local"`, when the retrieve call returns an empty
private key, the request submitted to the authority carries the generated public
key as its `PublicKeyData`, and a successful create leaves in `private_key` the
generated private key, unchanged, whatever `windows` is: a non-empty generated
key is written as it is, and on a resource whose `private_key` was not set the
value read back is the generated key. -/
theorem local_private_key_verbatim (env : Env) (d : ResourceData) (keySize : Int)
    (passphrase comment privateKey publicKey : String) (retReq : SshCertRequest)
    (data : SshCertificateObject)
    (hm : d.public_key_method = "local")
    (hgen : Event.GenerateSshKeyPair keySize passphrase comment (.ok (privateKey, publicKey)) ∈
      (resourceVenafiSshCertCreate env d).calls)
    (hret : Event.RetrieveSSHCertificate retReq (.ok data) ∈
      (resourceVenafiSshCertCreate env d).calls)
    (hempty : data.PrivateKeyData = "")
    (hok : (resourceVenafiSshCertCreate env d).diags = none) :
    (∃ reqData, Event.RequestSSHCertificate
        { env.buildSshCertRequest d with PublicKeyData := publicKey } (.ok reqData) ∈
      (resourceVenafiSshCertCreate env d).calls) ∧
    (∀ req res, Event.RequestSSHCertificate req res ∈ (resourceVenafiSshCertCreate env d).calls →
      req.PublicKeyData = publicKey) ∧
    (privateKey ≠ "" → (resourceVenafiSshCertCreate env d).d.private_key = some privateKey) ∧
    (d.private_key = none →
      ((resourceVenafiSshCertCreate env d).d.private_key).getD "" = privateKey) := by
  obtain ⟨reqData, hcalls, hdiag, hd⟩ :=
    local_run env d keySize passphrase comment privateKey publicKey retReq data hm hgen hret
  rw [hdiag] at hok
  have h := ((storeCertificate_success env _ _ _ _ _ hok).2.2.2.2.2.2.2.2.2 (by decide)).2
  have hstored : storedPrivateKey (d.SetId reqData.DN) "local" privateKey data = privateKey := by
    unfold storedPrivateKey
    simp [hempty]
  rw [hstored] at h
  simp only [hempty, if_true] at h
  refine ⟨⟨reqData, ?_⟩, ?_, ?_, ?_⟩
  · rw [hcalls]
    simp
  · intro req res hmem
    rw [hcalls] at hmem
    simp only [List.mem_cons, reduceCtorEq, false_or, Event.RequestSSHCertificate.injEq,
      List.mem_singleton, or_false, List.not_mem_nil] at hmem
    rw [hmem.1]
  · intro hne
    rw [hd, h]
    simp [hne]
  · intro hnone
    rw [hd, h]
    by_cases he : privateKey = ""
    · simp [he, ResourceData.SetId, hnone]
    · simp [he]

/-- The theorem `local_private_key_verbatim` on a sample run. -/
theorem local_private_key_verbatim_witness :
    (∃ reqData, Event.RequestSSHCertificate
        { (sampleEnv (.ok ("KEY\r\nEND", "ssh-rsa AAAAlocal")) "ssh/svc1"
            (.ok sampleLocalData)).buildSshCertRequest sampleLocalConfig with
          PublicKeyData := "ssh-rsa AAAAlocal" } (.ok reqData) ∈
      (resourceVenafiSshCertCreate
        (sampleEnv (.ok ("KEY\r\nEND", "ssh-rsa AAAAlocal")) "ssh/svc1" (.ok sampleLocalData))
        sampleLocalConfig).calls) ∧
    (∀ req res, Event.RequestSSHCertificate req res ∈
      (resourceVenafiSshCertCreate
        (sampleEnv (.ok ("KEY\r\nEND", "ssh-rsa AAAAlocal")) "ssh/svc1" (.ok sampleLocalData))
        sampleLocalConfig).calls → req.PublicKeyData = "ssh-rsa AAAAlocal") ∧
    ("KEY\r\nEND" ≠ "" →
      (resourceVenafiSshCertCreate
        (sampleEnv (.ok ("KEY\r\nEND", "ssh-rsa AAAAlocal")) "ssh/svc1" (.ok sampleLocalData))
        sampleLocalConfig).d.private_key = some "KEY\r\nEND") ∧
    (sampleLocalConfig.private_key = none →
      ((resourceVenafiSshCertCreate
        (sampleEnv (.ok ("KEY\r\nEND", "ssh-rsa AAAAlocal")) "ssh/svc1" (.ok sampleLocalData))
        sampleLocalConfig).d.private_key).getD "" = "KEY\r\nEND") :=
  local_private_key_verbatim
    (sampleEnv (.ok ("KEY\r\nEND", "ssh-rsa AAAAlocal")) "ssh/svc1" (.ok sampleLocalData))
    sampleLocalConfig 2048 "" "svc1" "KEY\r\nEND" "ssh-rsa AAAAlocal"
    (retrieveRequest "ssh/svc1" "") sampleLocalData rfl (by decide) (by decide) rfl (by decide)

/-- C6: if the key generation fails, or the submission fails, create returns that
error, the resource data (id and attributes) is unchanged and the retrieval is
never called; if the submission returns the handle `DN` and the retrieval then
fails, create returns an error and the resource data is the initial one with
the id set to `DN`, no attribute written.  In every run the id is `DN` when a
submission succeeded, and the resource data is untouched when none did. -/
theorem create_failure_semantics (env : Env) (d : ResourceData) :
    (∀ keySize passphrase comment err,
      Event.GenerateSshKeyPair keySize passphrase comment (.error err) ∈
        (resourceVenafiSshCertCreate env d).calls →
      (resourceVenafiSshCertCreate env d).diags = some (Diagnostics.FromErr err) ∧
      (resourceVenafiSshCertCreate env d).d = d ∧
      (∀ r res, Event.RequestSSHCertificate r res ∉ (resourceVenafiSshCertCreate env d).calls) ∧
      (∀ r res, Event.RetrieveSSHCertificate r res ∉
        (resourceVenafiSshCertCreate env d).calls)) ∧
    (∀ req err,
      Event.RequestSSHCertificate req (.error err) ∈ (resourceVenafiSshCertCreate env d).calls →
      (resourceVenafiSshCertCreate env d).diags = some (Diagnostics.FromErr err) ∧
      (resourceVenafiSshCertCreate env d).d = d ∧
      (∀ r res, Event.RetrieveSSHCertificate r res ∉
        (resourceVenafiSshCertCreate env d).calls)) ∧
    (∀ req reqData retReq err,
      Event.RequestSSHCertificate req (.ok reqData) ∈ (resourceVenafiSshCertCreate env d).calls →
      Event.RetrieveSSHCertificate retReq (.error err) ∈
        (resourceVenafiSshCertCreate env d).calls →
      (resourceVenafiSshCertCreate env d).diags =
        some (Diagnostics.FromErr ("failed to retrieve certificate: " ++ err)) ∧
      (resourceVenafiSshCertCreate env d).d = d.SetId reqData.DN) ∧
    (∀ req reqData,
      Event.RequestSSHCertificate req (.ok reqData) ∈ (resourceVenafiSshCertCreate env d).calls →
      (resourceVenafiSshCertCreate env d).d.id = reqData.DN) ∧
    ((∀ req reqData, Event.RequestSSHCertificate req (.ok reqData) ∉
        (resourceVenafiSshCertCreate env d).calls) →
      (resourceVenafiSshCertCreate env d).d = d) := by
  have hrun := create_run env d
  generalize resourceVenafiSshCertCreate env d = o at hrun
  cases hrun with
  | invalid err hv => simp
  | noConnection err hv hc => simp
  | generationFailed cl err hv hc hm hgen =>
    simp only [List.mem_cons, reduceCtorEq, false_or, Event.GenerateSshKeyPair.injEq,
      List.mem_singleton, List.not_mem_nil, or_false, Except.error.injEq, not_false_eq_true,
      implies_true, and_true, false_implies, and_imp]
    intro keySize passphrase comment e _ _ _ he
    rw [he]
  | emptyPublicKey cl hv hc hm hempty => simp
  | submissionFailed cl privateKey sPubKey req pre err hv hc hs hreq =>
    obtain ⟨h1, h2, h3⟩ := Sourced_pre env d privateKey sPubKey req pre hs
    refine ⟨?_, ?_, ?_, ?_, ?_⟩
    · intro keySize passphrase comment e hmem
      simp only [List.mem_append, List.mem_singleton, reduceCtorEq, or_false] at hmem
      exact absurd (h3 _ _ _ _ hmem).2.1 (by simp)
    · intro r e hmem
      simp only [List.mem_append, List.mem_singleton, h1, false_or,
        Event.RequestSSHCertificate.injEq, Except.error.injEq] at hmem
      simp [h2, hmem.2]
    · intro r rd rr e hmem
      simp [h1] at hmem
    · intro r rd hmem
      simp [h1] at hmem
    · intro _
      rfl
  | retrievalFailed cl privateKey sPubKey req pre reqData err hv hc hs hreq hret =>
    obtain ⟨h1, h2, h3⟩ := Sourced_pre env d privateKey sPubKey req pre hs
    refine ⟨?_, ?_, ?_, ?_, ?_⟩
    · intro keySize passphrase comment e hmem
      simp only [List.mem_append, List.mem_cons, List.mem_singleton, reduceCtorEq, or_false,
        List.not_mem_nil] at hmem
      exact absurd (h3 _ _ _ _ hmem).2.1 (by simp)
    · intro r e hmem
      simp [h1] at hmem
    · intro r rd rr e hmem1 hmem2
      simp only [List.mem_append, List.mem_cons, List.mem_singleton, h1, h2, false_or,
        reduceCtorEq, or_false, Event.RequestSSHCertificate.injEq, Except.ok.injEq,
        Event.RetrieveSSHCertificate.injEq, Except.error.injEq, List.not_mem_nil]
        at hmem1 hmem2
      rw [hmem1.2, hmem2.2]
      exact ⟨rfl, rfl⟩
    · intro r rd hmem
      simp only [List.mem_append, List.mem_cons, List.mem_singleton, h1, false_or,
        reduceCtorEq, or_false, Event.RequestSSHCertificate.injEq, Except.ok.injEq,
        List.not_mem_nil] at hmem
      rw [hmem.2]
      rfl
    · intro hnone
      exact absurd (by simp) (hnone req reqData)
  | retrieved cl privateKey sPubKey req pre reqData data hv hc hs hreq hret =>
    obtain ⟨h1, h2, h3⟩ := Sourced_pre env d privateKey sPubKey req pre hs
    refine ⟨?_, ?_, ?_, ?_, ?_⟩
    · intro keySize passphrase comment e hmem
      simp only [List.mem_append, List.mem_cons, List.mem_singleton, reduceCtorEq, or_false,
        List.not_mem_nil] at hmem
      exact absurd (h3 _ _ _ _ hmem).2.1 (by simp)
    · intro r e hmem
      simp [h1] at hmem
    · intro r rd rr e hmem1 hmem2
      simp [h2] at hmem2
    · intro r rd hmem
      simp only [List.mem_append, List.mem_cons, List.mem_singleton, h1, false_or,
        reduceCtorEq, or_false, Event.RequestSSHCertificate.injEq, Except.ok.injEq,
        List.not_mem_nil] at hmem
      rw [hmem.2]
      exact storeCertificate_id env _ _ _ _ _
    · intro hnone
      exact absurd (by simp) (hnone req reqData)

/-- The theorem `create_failure_semantics` on a sample run. -/
theorem create_failure_semantics_witness :
    ((resourceVenafiSshCertCreate (sampleEnv (.error "no entropy") "ssh/svc1" (.ok sampleLocalData))
        sampleLocalConfig).diags = some (Diagnostics.FromErr "no entropy") ∧
      (resourceVenafiSshCertCreate (sampleEnv (.error "no entropy") "ssh/svc1" (.ok sampleLocalData))
        sampleLocalConfig).d = sampleLocalConfig ∧
      (∀ r res, Event.RequestSSHCertificate r res ∉
        (resourceVenafiSshCertCreate
          (sampleEnv (.error "no entropy") "ssh/svc1" (.ok sampleLocalData))
          sampleLocalConfig).calls) ∧
      (∀ r res, Event.RetrieveSSHCertificate r res ∉
        (resourceVenafiSshCertCreate
          (sampleEnv (.error "no entropy") "ssh/svc1" (.ok sampleLocalData))
          sampleLocalConfig).calls)) ∧
    ((resourceVenafiSshCertCreate rejectingEnv sampleLocalConfig).diags =
        some (Diagnostics.FromErr "rejected") ∧
      (resourceVenafiSshCertCreate rejectingEnv sampleLocalConfig).d = sampleLocalConfig ∧
      (∀ r res, Event.RetrieveSSHCertificate r res ∉
        (resourceVenafiSshCertCreate rejectingEnv sampleLocalConfig).calls)) ∧
    ((resourceVenafiSshCertCreate
        (sampleEnv (.ok ("PRIVATE KEY", "ssh-rsa AAAAlocal")) "ssh/svc1" (.error "timeout"))
        sampleLocalConfig).diags =
        some (Diagnostics.FromErr ("failed to retrieve certificate: " ++ "timeout")) ∧
      (resourceVenafiSshCertCreate
        (sampleEnv (.ok ("PRIVATE KEY", "ssh-rsa AAAAlocal")) "ssh/svc1" (.error "timeout"))
        sampleLocalConfig).d =
        sampleLocalConfig.SetId (({ DN := "ssh/svc1" } : SshCertificateObject).DN)) :=
  ⟨(create_failure_semantics
      (sampleEnv (.error "no entropy") "ssh/svc1" (.ok sampleLocalData)) sampleLocalConfig).1
      2048 "" "svc1" "no entropy" (by decide),
    (create_failure_semantics rejectingEnv sampleLocalConfig).2.1
      { sampleBuildSshCertRequest sampleLocalConfig with PublicKeyData := "ssh-rsa AAAAlocal" }
      "rejected" (by decide),
    (create_failure_semantics
      (sampleEnv (.ok ("PRIVATE KEY", "ssh-rsa AAAAlocal")) "ssh/svc1" (.error "timeout"))
      sampleLocalConfig).2.2.1
      { sampleBuildSshCertRequest sampleLocalConfig with PublicKeyData := "ssh-rsa AAAAlocal" }
      { DN := "ssh/svc1" } (retrieveRequest "ssh/svc1" "") "timeout" (by decide) (by decide)⟩

/-- C7: a successful create stores `public_key_fingerprint = "SHA256:" ++ p` and
`signing_ca = "SHA256:" ++ c`, where `p` and `c` are the fingerprints of the
retrieved certificate details, for every method; dropping the first 7 characters
of the stored values gives `p` and `c` back. -/
theorem fingerprints_formatted (env : Env) (d : ResourceData) (retReq : SshCertRequest)
    (data : SshCertificateObject)
    (hret : Event.RetrieveSSHCertificate retReq (.ok data) ∈
      (resourceVenafiSshCertCreate env d).calls)
    (hok : (resourceVenafiSshCertCreate env d).diags = none) :
    (resourceVenafiSshCertCreate env d).d.public_key_fingerprint =
      some ("SHA256:" ++ data.CertificateDetails.PublicKeyFingerprintSHA256) ∧
    (resourceVenafiSshCertCreate env d).d.signing_ca =
      some ("SHA256:" ++ data.CertificateDetails.CAFingerprintSHA256) ∧
    "SHA256:".length = 7 ∧
    ((resourceVenafiSshCertCreate env d).d.public_key_fingerprint).map (fun v => v.drop 7) =
      some data.CertificateDetails.PublicKeyFingerprintSHA256 ∧
    ((resourceVenafiSshCertCreate env d).d.signing_ca).map (fun v => v.drop 7) =
      some data.CertificateDetails.CAFingerprintSHA256 := by
  obtain ⟨cl, privateKey, sPubKey, req, reqData, pre, -, -, -, -, -, -, -, hdiag, hd⟩ :=
    create_retrieved env d retReq data hret
  rw [hdiag] at hok
  obtain ⟨-, -, -, hp, hc, -⟩ := storeCertificate_success env _ _ _ _ _ hok
  rw [sprintfColon_SHA256] at hp hc
  rw [hd, hp, hc]
  refine ⟨rfl, rfl, by decide, ?_, ?_⟩
  · simp only [Option.map_some']
    rw [drop_SHA256]
  · simp only [Option.map_some']
    rw [drop_SHA256]

/-- The theorem `fingerprints_formatted` on a sample run. -/
theorem fingerprints_formatted_witness :
    (resourceVenafiSshCertCreate (sampleEnv (.error "unused") "ssh/svc1" (.ok sampleServiceData))
      sampleFileConfig).d.public_key_fingerprint = some ("SHA256:" ++ "ab12") ∧
    (resourceVenafiSshCertCreate (sampleEnv (.error "unused") "ssh/svc1" (.ok sampleServiceData))
      sampleFileConfig).d.signing_ca = some ("SHA256:" ++ "cd34") ∧
    "SHA256:".length = 7 ∧
    ((resourceVenafiSshCertCreate (sampleEnv (.error "unused") "ssh/svc1" (.ok sampleServiceData))
      sampleFileConfig).d.public_key_fingerprint).map (fun v => v.drop 7) = some "ab12" ∧
    ((resourceVenafiSshCertCreate (sampleEnv (.error "unused") "ssh/svc1" (.ok sampleServiceData))
      sampleFileConfig).d.signing_ca).map (fun v => v.drop 7) = some "cd34" :=
  fingerprints_formatted (sampleEnv (.error "unused") "ssh/svc1" (.ok sampleServiceData))
    sampleFileConfig (retrieveRequest "ssh/svc1" "") sampleServiceData (by decide) (by decide)

/-- C8: read and delete return no diagnostics; read clears the id and nothing else
when `certificate` is absent or empty and changes nothing when it is non-empty;
delete clears the id and nothing else; applying either twice gives the same as
applying it once. -/
theorem read_delete_idempotent (d : ResourceData) :
    (resourceVenafiSshCertRead d).1 = none ∧
    (resourceVenafiSshCertDelete d).1 = none ∧
    ((d.certificate = none ∨ d.certificate = some "") →
      (resourceVenafiSshCertRead d).2 = { d with id := "" }) ∧
    (∀ c, d.certificate = some c → c ≠ "" → (resourceVenafiSshCertRead d).2 = d) ∧
    (resourceVenafiSshCertDelete d).2 = { d with id := "" } ∧
    resourceVenafiSshCertRead (resourceVenafiSshCertRead d).2 = resourceVenafiSshCertRead d ∧
    resourceVenafiSshCertDelete (resourceVenafiSshCertDelete d).2 =
      resourceVenafiSshCertDelete d := by
  unfold resourceVenafiSshCertRead resourceVenafiSshCertDelete ResourceData.GetOkCertificate
    ResourceData.SetId
  cases hc : d.certificate with
  | none => simp [hc]
  | some c =>
    by_cases hempty : c = ""
    · simp [hc, hempty]
    · simp [hc, hempty]

/-- The theorem `read_delete_idempotent` on a sample run. -/
theorem read_delete_idempotent_witness :
    (resourceVenafiSshCertRead sampleStored).2 = sampleStored ∧
    (resourceVenafiSshCertRead { sampleStored with certificate := some "" }).2 =
      { sampleStored with certificate := some "", id := "" } :=
  ⟨(read_delete_idempotent sampleStored).2.2.2.1 _ rfl (by decide),
    (read_delete_idempotent { sampleStored with certificate := some "" }).2.2.1 (Or.inr rfl)⟩

/-- C9, as amended: a successful create stores the retrieved certificate data,
certificate type and serial number unchanged, for every method; with the service
method it stores the retrieved public key, and the retrieved private key when
it is not empty, with "\r\n" replaced by "\n" unless `windows` is set; with the
file method it writes neither `public_key` nor `private_key`, which keep the
values they had. -/
theorem file_service_pass_through (env : Env) (d : ResourceData) (retReq : SshCertRequest)
    (data : SshCertificateObject)
    (hret : Event.RetrieveSSHCertificate retReq (.ok data) ∈
      (resourceVenafiSshCertCreate env d).calls)
    (hok : (resourceVenafiSshCertCreate env d).diags = none) :
    (resourceVenafiSshCertCreate env d).d.certificate = some data.CertificateData ∧
    (resourceVenafiSshCertCreate env d).d.certificate_type =
      some data.CertificateDetails.CertificateType ∧
    (resourceVenafiSshCertCreate env d).d.serial = some data.CertificateDetails.SerialNumber ∧
    (d.public_key_method = "service" →
      (resourceVenafiSshCertCreate env d).d.public_key = data.PublicKeyData ∧
      (resourceVenafiSshCertCreate env d).d.private_key =
        (if data.PrivateKeyData = "" then d.private_key
         else some (if d.windows then data.PrivateKeyData
                    else stringsReplaceAll data.PrivateKeyData "\r\n" "\n"))) ∧
    (d.public_key_method = "file" →
      (resourceVenafiSshCertCreate env d).d.public_key = d.public_key ∧
      (resourceVenafiSshCertCreate env d).d.private_key = d.private_key) := by
  obtain ⟨cl, privateKey, sPubKey, req, reqData, pre, -, -, hs, -, -, -, -, hdiag, hd⟩ :=
    create_retrieved env d retReq data hret
  rw [hdiag] at hok
  obtain ⟨-, h1, h2, -, -, h3, -, -, hfile, hother⟩ := storeCertificate_success env _ _ _ _ _ hok
  rw [hd]
  refine ⟨h1, h2, h3, ?_, ?_⟩
  · intro hm
    have hkeys : privateKey = "" ∧ sPubKey = "" := by
      rcases hs with ⟨h, -⟩ | ⟨h, -⟩ | ⟨-, -, k1, k2, -⟩
      · rw [hm] at h; exact absurd h (by decide)
      · rw [hm] at h; exact absurd h (by decide)
      · exact ⟨k1, k2⟩
    obtain ⟨hp, hq⟩ := hkeys
    subst hp hq
    obtain ⟨k1, k2⟩ := hother (by rw [hm]; decide)
    rw [k1, k2, hm]
    refine ⟨by simp, ?_⟩
    by_cases hempty : data.PrivateKeyData = ""
    · simp [hempty, ResourceData.SetId]
    · unfold storedPrivateKey ResourceData.SetId
      cases d.windows <;> simp [hempty]
  · intro hm
    exact hfile hm

/-- The theorem `file_service_pass_through` on a sample run. -/
theorem file_service_pass_through_witness :
    (resourceVenafiSshCertCreate (sampleEnv (.error "unused") "ssh/svc1" (.ok sampleServiceData))
      sampleServiceConfig).d.public_key = sampleServiceData.PublicKeyData ∧
    (resourceVenafiSshCertCreate (sampleEnv (.error "unused") "ssh/svc1" (.ok sampleServiceData))
      sampleServiceConfig).d.private_key =
      (if sampleServiceData.PrivateKeyData = "" then sampleServiceConfig.private_key
       else some (if sampleServiceConfig.windows then sampleServiceData.PrivateKeyData
                  else stringsReplaceAll sampleServiceData.PrivateKeyData "\r\n" "\n")) :=
  (file_service_pass_through (sampleEnv (.error "unused") "ssh/svc1" (.ok sampleServiceData))
    sampleServiceConfig (retrieveRequest "ssh/svc1" "") sampleServiceData (by decide)
    (by decide)).2.2.2.1 rfl

/-- C9 fails as stated: with the file method a successful create leaves the
configured public key in `public_key` although the authority returned another
one, and writes no `private_key` although the authority returned one. -/
theorem file_service_pass_through_counterexample :
    sampleFileConfig.public_key_method = "file" ∧
    Event.RetrieveSSHCertificate (retrieveRequest "ssh/svc1" "") (.ok sampleServiceData) ∈
      (resourceVenafiSshCertCreate (sampleEnv (.error "unused") "ssh/svc1" (.ok sampleServiceData))
        sampleFileConfig).calls ∧
    (resourceVenafiSshCertCreate (sampleEnv (.error "unused") "ssh/svc1" (.ok sampleServiceData))
      sampleFileConfig).diags = none ∧
    (resourceVenafiSshCertCreate (sampleEnv (.error "unused") "ssh/svc1" (.ok sampleServiceData))
      sampleFileConfig).d.public_key = "ssh-rsa AAAAfile" ∧
    (resourceVenafiSshCertCreate (sampleEnv (.error "unused") "ssh/svc1" (.ok sampleServiceData))
      sampleFileConfig).d.public_key ≠ sampleServiceData.PublicKeyData ∧
    (resourceVenafiSshCertCreate (sampleEnv (.error "unused") "ssh/svc1" (.ok sampleServiceData))
      sampleFileConfig).d.private_key = none ∧
    sampleServiceData.PrivateKeyData ≠ "" := by
  decide

/-- C10, as amended: in every run that reaches `RequestSSHCertificate`, with a
generator that keeps its contract, the request's `PublicKeyData` is not empty
when the method is "local" (it is the generated public key) or "file" (it is
the configured `public_key`); for any other method, "service" included, the
request is the one `buildSshCertRequest` built, with no public key added. -/
theorem submitted_public_key (env : Env) (d : ResourceData) (req : SshCertRequest)
    (res : Except GoError SshCertificateObject)
    (hcontract : GeneratorContract env)
    (hmem : Event.RequestSSHCertificate req res ∈ (resourceVenafiSshCertCreate env d).calls) :
    (d.public_key_method = "file" → req.PublicKeyData = d.public_key ∧ req.PublicKeyData ≠ "") ∧
    (d.public_key_method = "local" →
      (∃ keySize privateKey, Event.GenerateSshKeyPair keySize d.key_passphrase d.key_id
        (.ok (privateKey, req.PublicKeyData)) ∈ (resourceVenafiSshCertCreate env d).calls) ∧
      req.PublicKeyData ≠ "") ∧
    (d.public_key_method ≠ "local" → d.public_key_method ≠ "file" →
      req = env.buildSshCertRequest d) := by
  obtain ⟨hfile, hlocal, hother⟩ := submitted_request env d req res hmem
  refine ⟨hfile, fun hl => ?_, hother⟩
  obtain ⟨keySize, privateKey, hgen⟩ := hlocal hl
  exact ⟨⟨keySize, privateKey, hgen⟩,
    hcontract keySize d.key_passphrase d.key_id privateKey req.PublicKeyData
      (generate_event_sound env d keySize d.key_passphrase d.key_id _ hgen)⟩

/-- The theorem `submitted_public_key` on two sample runs, with the file method
and with the local method. -/
theorem submitted_public_key_witness :
    (({ sampleBuildSshCertRequest sampleFileConfig with
        PublicKeyData := "ssh-rsa AAAAfile" } : SshCertRequest).PublicKeyData =
        sampleFileConfig.public_key ∧
      ({ sampleBuildSshCertRequest sampleFileConfig with
        PublicKeyData := "ssh-rsa AAAAfile" } : SshCertRequest).PublicKeyData ≠ "") ∧
    ({ sampleBuildSshCertRequest sampleLocalConfig with
       PublicKeyData := "ssh-rsa AAAAlocal" } : SshCertRequest).PublicKeyData ≠ "" :=
  ⟨(submitted_public_key (sampleEnv (.error "unused") "ssh/svc1" (.ok sampleServiceData))
      sampleFileConfig
      { sampleBuildSshCertRequest sampleFileConfig with PublicKeyData := "ssh-rsa AAAAfile" }
      (.ok { DN := "ssh/svc1" })
      (by
      intro _ _ _ _ _ hgen
      simp [sampleEnv] at hgen)
      (by decide)).1 rfl,
    ((submitted_public_key
      (sampleEnv (.ok ("PRIVATE KEY", "ssh-rsa AAAAlocal")) "ssh/svc1" (.ok sampleLocalData))
      sampleLocalConfig
      { sampleBuildSshCertRequest sampleLocalConfig with PublicKeyData := "ssh-rsa AAAAlocal" }
      (.ok { DN := "ssh/svc1" })
      (by
      intro _ _ _ _ publicKey hgen
      simp only [sampleEnv, Except.ok.injEq, Prod.mk.injEq] at hgen
      rw [← hgen.2]
      decide)
      (by decide)).2.1 rfl).2⟩

/-- C10 fails as stated: with the service method the request reaches
`RequestSSHCertificate` with an empty `PublicKeyData`. -/
theorem submitted_public_key_counterexample :
    Event.RequestSSHCertificate (sampleBuildSshCertRequest sampleServiceConfig)
        (.ok { DN := "ssh/svc1" }) ∈
      (resourceVenafiSshCertCreate (sampleEnv (.error "unused") "ssh/svc1" (.ok sampleServiceData))
        sampleServiceConfig).calls ∧
    (sampleBuildSshCertRequest sampleServiceConfig).PublicKeyData = "" := by
  decide

end Venafi
